import Mathlib

/-! Verification of the PhotoGeoView metadata-extraction and thumbnail-derivation
core (`src-tauri/src/commands/exif.rs`, `src-tauri/src/commands/thumbnail.rs`,
`src-tauri/src/models/photo.rs`, `src-tauri/src/error.rs`).

The EXIF container is modelled as a lookup from tags to typed values
(rational list, unsigned-integer list, or ASCII text), mirroring the
tag-keyed field store the extraction code queries.  Rust `f64` arithmetic
is modelled over `ℚ`; Rust strings are modelled as `List Char`, with the
single-character `str::replace` / `str::split` operations defined to match
Rust semantics.
-/

namespace PhotoGeoView

/-- The EXIF tags queried by `exif.rs` (subset of `exif::Tag`). -/
inductive Tag where
  | GPSLatitude
  | GPSLatitudeRef
  | GPSLongitude
  | GPSLongitudeRef
  | DateTimeOriginal
  | DateTime
  | Make
  | Model
  | PixelXDimension
  | ImageWidth
  | PixelYDimension
  | ImageLength
  | PhotographicSensitivity
  | FNumber
  | ExposureTime
  | FocalLength
deriving DecidableEq, Fintype, Repr

/-- Embeds `exif::Rational`: an unsigned numerator/denominator pair. -/
structure Rational where
  num : Nat
  den : Nat
deriving DecidableEq, Repr

/-- Embeds `Rational::to_f64`: numerator divided by denominator (modelled over ℚ). -/
def Rational.to_f64 (r : Rational) : ℚ := (r.num : ℚ) / (r.den : ℚ)

/-- The typed values an EXIF field can carry (subset of `exif::Value`):
a list of rationals, a list of unsigned integers, or ASCII text. -/
inductive Value where
  | Rational (v : List PhotoGeoView.Rational)
  | UInt (v : List Nat)
  | Ascii (s : List Char)
deriving DecidableEq, Repr

/-- Decimal digits of a natural number. -/
def natToDigits (n : Nat) : List Char := Nat.toDigits 10 n

/-- Embeds `Value::get_uint(i)`: the i-th element of an unsigned-integer value. -/
def Value.get_uint : Value → Nat → Option Nat
  | Value.UInt l, i => l.get? i
  | _, _ => none

/-- Embeds `Field::display_value().to_string()`: ASCII values display as their text;
numeric values display as comma-separated decimal renderings. -/
def Value.display_value : Value → List Char
  | Value.Ascii s => s
  | Value.UInt l => List.intercalate (", ".data) (l.map natToDigits)
  | Value.Rational l =>
      List.intercalate (", ".data)
        (l.map (fun r => natToDigits r.num ++ ("/".data) ++ natToDigits r.den))

/-- A parsed EXIF container: a lookup from tag to optional field value
(all lookups in the source use `In::PRIMARY`, so the IFD index is dropped). -/
structure Exif where
  fields : Tag → Option Value

/-- Embeds `Exif::get_field(tag, In::PRIMARY)`. -/
def Exif.get_field (e : Exif) (t : Tag) : Option Value := e.fields t

/-- Embeds `models::photo::Gps` (lat/lng are `f64`, modelled over ℚ). -/
structure Gps where
  lat : ℚ
  lng : ℚ
deriving DecidableEq, Repr

/-- Embeds `models::photo::CameraInfo`. -/
structure CameraInfo where
  make : List Char
  model : List Char
deriving DecidableEq, Repr

/-- Embeds `models::photo::ExifData`. -/
structure ExifData where
  gps : Option Gps
  datetime : Option (List Char)
  camera : Option CameraInfo
  width : Option Nat
  height : Option Nat
  iso : Option Nat
  aperture : Option ℚ
  shutter_speed : Option ℚ
  focal_length : Option ℚ
deriving DecidableEq, Repr

/-- Embeds `error::PhotoError`. -/
inductive PhotoError where
  | FileNotFound (p : List Char)
  | FileReadError (m : List Char)
  | ExifReadError (m : List Char)
  | NoGpsData
  | ImageProcessError (m : List Char)
  | ThumbnailGenerationError (m : List Char)
  | InternalError (m : List Char)
deriving DecidableEq, Repr

/-- Rust `str::replace(a, b)` with a single-character pattern and
single-character replacement: a character map. -/
def replaceChar (a b : Char) (s : List Char) : List Char :=
  s.map (fun c => if c = a then b else c)

/-- Rust `str::split(sep)` on a character separator, collected to a list. -/
def splitOnChar (sep : Char) : List Char → List (List Char)
  | [] => [[]]
  | c :: cs =>
    if c = sep then [] :: splitOnChar sep cs
    else
      match splitOnChar sep cs with
      | [] => [[c]]
      | p :: ps => (c :: p) :: ps

/-- Rust `str::trim`: strip leading and trailing whitespace. -/
def trim (s : List Char) : List Char :=
  ((s.dropWhile Char.isWhitespace).reverse.dropWhile Char.isWhitespace).reverse

/-- Embeds `extract_gps_coordinate` (exif.rs：度分秒 → 十進法に変換): requires both the
coordinate field and the reference field; reads the first three rationals as
degrees/minutes/seconds; negates when the displayed reference is "S" or "W". -/
def extract_gps_coordinate (e : Exif) (coord_tag ref_tag : Tag) : Option ℚ :=
  match e.get_field coord_tag with
  | none => none
  | some coord_field =>
    match e.get_field ref_tag with
    | none => none
    | some ref_field =>
      match coord_field with
      | Value.Rational (dv :: mv :: sv :: _) =>
        let decimal := dv.to_f64 + mv.to_f64 / 60 + sv.to_f64 / 3600
        let ref_str := ref_field.display_value
        if ref_str = ("S".data) ∨ ref_str = ("W".data) then some (-decimal)
        else some decimal
      | _ => none

/-- Embeds `extract_gps` (exif.rs): both axes must yield a coordinate. -/
def extract_gps (e : Exif) : Option Gps :=
  match extract_gps_coordinate e Tag.GPSLatitude Tag.GPSLatitudeRef with
  | none => none
  | some lat =>
    match extract_gps_coordinate e Tag.GPSLongitude Tag.GPSLongitudeRef with
    | none => none
    | some lng => some { lat := lat, lng := lng }

/-- Embeds `extract_datetime` (exif.rs): prefer `DateTimeOriginal`, fall back to
`DateTime`; replace the space with 'T' and every colon with a hyphen, then
split on 'T'; with exactly two parts, restore colons in the time part;
otherwise return the raw displayed string. -/
def extract_datetime (e : Exif) : Option (List Char) :=
  match (e.get_field Tag.DateTimeOriginal).orElse
      (fun _ => e.get_field Tag.DateTime) with
  | none => none
  | some datetime_field =>
    let datetime_str := datetime_field.display_value
    let iso_datetime := replaceChar ':' '-' (replaceChar ' ' 'T' datetime_str)
    match splitOnChar 'T' iso_datetime with
    | [date, time] => some (date ++ 'T' :: replaceChar '-' ':' time)
    | _ => some datetime_str

/-- Embeds `extract_camera` (exif.rs): both `Make` and `Model` must be present;
each displayed value is whitespace-trimmed. -/
def extract_camera (e : Exif) : Option CameraInfo :=
  match e.get_field Tag.Make with
  | none => none
  | some mk =>
    match e.get_field Tag.Model with
    | none => none
    | some md => some { make := trim mk.display_value, model := trim md.display_value }

/-- Embeds `extract_image_size` (exif.rs): width from `PixelXDimension` else
`ImageWidth`, height from `PixelYDimension` else `ImageLength`. -/
def extract_image_size (e : Exif) : Option Nat × Option Nat :=
  (((e.get_field Tag.PixelXDimension).orElse
      (fun _ => e.get_field Tag.ImageWidth)).bind (fun f => f.get_uint 0),
   ((e.get_field Tag.PixelYDimension).orElse
      (fun _ => e.get_field Tag.ImageLength)).bind (fun f => f.get_uint 0))

/-- Embeds `extract_iso` (exif.rs). -/
def extract_iso (e : Exif) : Option Nat :=
  (e.get_field Tag.PhotographicSensitivity).bind (fun f => f.get_uint 0)

/-- Embeds `extract_aperture` (exif.rs): first rational of `FNumber` as f64. -/
def extract_aperture (e : Exif) : Option ℚ :=
  (e.get_field Tag.FNumber).bind (fun f =>
    match f with
    | Value.Rational (r :: _) => some r.to_f64
    | _ => none)

/-- Embeds `extract_shutter_speed` (exif.rs): first rational of `ExposureTime`. -/
def extract_shutter_speed (e : Exif) : Option ℚ :=
  (e.get_field Tag.ExposureTime).bind (fun f =>
    match f with
    | Value.Rational (r :: _) => some r.to_f64
    | _ => none)

/-- Embeds `extract_focal_length` (exif.rs): first rational of `FocalLength`. -/
def extract_focal_length (e : Exif) : Option ℚ :=
  (e.get_field Tag.FocalLength).bind (fun f =>
    match f with
    | Value.Rational (r :: _) => some r.to_f64
    | _ => none)

/-- The success path of `read_exif` (exif.rs lines 30–65): each field of the
record is computed by its own extractor from the parsed container. -/
def read_exif_data (e : Exif) : ExifData :=
  { gps := extract_gps e
    datetime := extract_datetime e
    camera := extract_camera e
    width := (extract_image_size e).1
    height := (extract_image_size e).2
    iso := extract_iso e
    aperture := extract_aperture e
    shutter_speed := extract_shutter_speed e
    focal_length := extract_focal_length e }

/-- The result of `exif::Reader::read_from_container` on an opened file:
either a parse error or a parsed container. -/
structure ExifSource where
  parse : Except (List Char) Exif

/-- The file-system boundary of `read_exif`: `Path::exists` and `File::open`. -/
structure Fs where
  pathExists : List Char → Bool
  openFile : List Char → Except (List Char) ExifSource

/-- Embeds `read_exif` (exif.rs): existence check, open, container parse, then the
independent per-field extraction. -/
def read_exif (fs : Fs) (path : List Char) : Except PhotoError ExifData :=
  if fs.pathExists path = false then
    Except.error (PhotoError.FileNotFound path)
  else
    match fs.openFile path with
    | Except.error e => Except.error (PhotoError.FileReadError (path ++ (": ".data) ++ e))
    | Except.ok src =>
      match src.parse with
      | Except.error e => Except.error (PhotoError.ExifReadError (path ++ (": ".data) ++ e))
      | Except.ok exif => Except.ok (read_exif_data exif)

/-- A decoded raster image, reduced to its pixel dimensions (the only part of
the pixel data the dimension claims depend on). -/
structure RawImage where
  width : Nat
  height : Nat
deriving DecidableEq, Repr

/-- Embeds `THUMBNAIL_SIZE` (thumbnail.rs). -/
def THUMBNAIL_SIZE : Nat := 200

/-- Modelled from the spec: the dimension selection of the aspect-preserving
bounded resize performed by `DynamicImage::resize` of the external `image`
crate (library code, not part of this repository).  Per the spec, the longer
of width/height is scaled to the bound and the shorter dimension scales
proportionally, with rounding to whole pixels and a minimum of one pixel;
the scale factor is the smaller of the two per-axis ratios.  Real-number
arithmetic is modelled over ℚ. -/
def resize_dimensions (width height nwidth nheight : Nat) : Nat × Nat :=
  let wr : ℚ := (nwidth : ℚ) / (width : ℚ)
  let hr : ℚ := (nheight : ℚ) / (height : ℚ)
  let rt : ℚ := min wr hr
  (max (round ((width : ℚ) * rt)).toNat 1,
   max (round ((height : ℚ) * rt)).toNat 1)

/-- Embeds `img.resize(nwidth, nheight, FilterType::Lanczos3)`, tracked at the level
of dimensions: the resampling filter does not affect the output footprint. -/
def RawImage.resize (img : RawImage) (nwidth nheight : Nat) : RawImage :=
  { width := (resize_dimensions img.width img.height nwidth nheight).1
    height := (resize_dimensions img.width img.height nwidth nheight).2 }

/-- The standard base64 alphabet used by `general_purpose::STANDARD`. -/
def base64Chars : List Char :=
  ("ABCDEFGHIJKLMNOPQRSTUVWXYZabcdefghijklmnopqrstuvwxyz0123456789+/".data)

/-- One base64 digit. -/
def b64c (n : Nat) : Char := base64Chars.getD n 'A'

/-- Standard base64 encoding with padding, over a byte list
(`general_purpose::STANDARD.encode`). -/
def base64Encode : List Nat → List Char
  | [] => []
  | [b1] => [b64c (b1 / 4), b64c (b1 % 4 * 16), '=', '=']
  | [b1, b2] => [b64c (b1 / 4), b64c (b1 % 4 * 16 + b2 / 16), b64c (b2 % 16 * 4), '=']
  | b1 :: b2 :: b3 :: rest =>
      b64c (b1 / 4) :: b64c (b1 % 4 * 16 + b2 / 16) ::
        b64c (b2 % 16 * 4 + b3 / 64) :: b64c (b3 % 64) :: base64Encode rest

/-- The file-system boundary of `generate_thumbnail`: `Path::exists` and
`image::open` (decode). -/
structure ImgFs where
  pathExists : List Char → Bool
  openImage : List Char → Except (List Char) RawImage

/-- Embeds `generate_thumbnail` (thumbnail.rs): existence check, decode, bounded
aspect-preserving resize, JPEG encode (the in-memory encoder of the external
`image` crate is passed as the parameter `enc`), base64, data-URI wrapping. -/
def generate_thumbnail (enc : RawImage → Except (List Char) (List Nat))
    (fs : ImgFs) (path : List Char) : Except PhotoError (List Char) :=
  if fs.pathExists path = false then
    Except.error (PhotoError.FileNotFound path)
  else
    match fs.openImage path with
    | Except.error e =>
        Except.error (PhotoError.ImageProcessError (("画像の読み込みに失敗: ".data) ++ e))
    | Except.ok img =>
      let thumbnail := img.resize THUMBNAIL_SIZE THUMBNAIL_SIZE
      match enc thumbnail with
      | Except.error e =>
          Except.error (PhotoError.ImageProcessError (("サムネイルのエンコードに失敗: ".data) ++ e))
      | Except.ok buf =>
          Except.ok (("data:image/jpeg;base64,".data) ++ base64Encode buf)

/-- Build a container from an association list of tag/value pairs. -/
def exifOf (l : List (Tag × Value)) : Exif :=
  { fields := fun t => (l.find? (fun p => decide (p.1 = t))).map (fun p => p.2) }

/-- The P2 container: latitude 35°30′0″ N, longitude 139°45′0″ E. -/
def exP2 : Exif := exifOf
  [(Tag.GPSLatitude, Value.Rational [⟨35, 1⟩, ⟨30, 1⟩, ⟨0, 1⟩]),
   (Tag.GPSLatitudeRef, Value.Ascii ("N".data)),
   (Tag.GPSLongitude, Value.Rational [⟨139, 1⟩, ⟨45, 1⟩, ⟨0, 1⟩]),
   (Tag.GPSLongitudeRef, Value.Ascii ("E".data))]

/-- Same magnitudes as `exP2` with southern/western references. -/
def exP2SW : Exif := exifOf
  [(Tag.GPSLatitude, Value.Rational [⟨35, 1⟩, ⟨30, 1⟩, ⟨0, 1⟩]),
   (Tag.GPSLatitudeRef, Value.Ascii ("S".data)),
   (Tag.GPSLongitude, Value.Rational [⟨139, 1⟩, ⟨45, 1⟩, ⟨0, 1⟩]),
   (Tag.GPSLongitudeRef, Value.Ascii ("W".data))]

/-- A container whose sexagesimal values exceed the geographic ranges. -/
def exBig : Exif := exifOf
  [(Tag.GPSLatitude, Value.Rational [⟨200, 1⟩, ⟨0, 1⟩, ⟨0, 1⟩]),
   (Tag.GPSLatitudeRef, Value.Ascii ("N".data)),
   (Tag.GPSLongitude, Value.Rational [⟨300, 1⟩, ⟨0, 1⟩, ⟨0, 1⟩]),
   (Tag.GPSLongitudeRef, Value.Ascii ("E".data))]

/-- A container with a latitude triple but no latitude reference tag, and a
complete longitude pair. -/
def exHalfGps : Exif := exifOf
  [(Tag.GPSLatitude, Value.Rational [⟨35, 1⟩, ⟨30, 1⟩, ⟨0, 1⟩]),
   (Tag.GPSLongitude, Value.Rational [⟨139, 1⟩, ⟨45, 1⟩, ⟨0, 1⟩]),
   (Tag.GPSLongitudeRef, Value.Ascii ("E".data))]

/-- A container whose latitude reference is the lowercase text "s". -/
def exLowerRef : Exif := exifOf
  [(Tag.GPSLatitude, Value.Rational [⟨35, 1⟩, ⟨30, 1⟩, ⟨0, 1⟩]),
   (Tag.GPSLatitudeRef, Value.Ascii ("s".data))]

/-- A container carrying a well-formed EXIF timestamp. -/
def exDT : Exif := exifOf
  [(Tag.DateTimeOriginal, Value.Ascii ("2024:03:15 10:20:30".data))]

/-- A container whose timestamp has no date/time separator at all. -/
def exDTRaw : Exif := exifOf
  [(Tag.DateTime, Value.Ascii ("20240315102030".data))]

/-- A container with whitespace-padded make and model tags. -/
def exCam : Exif := exifOf
  [(Tag.Make, Value.Ascii (" Canon ".data)),
   (Tag.Model, Value.Ascii (" EOS R5 ".data))]

/-- A container with GPS, ISO and pixel dimensions but no `Make` tag. -/
def exNoMake : Exif := exifOf
  [(Tag.GPSLatitude, Value.Rational [⟨35, 1⟩, ⟨30, 1⟩, ⟨0, 1⟩]),
   (Tag.GPSLatitudeRef, Value.Ascii ("N".data)),
   (Tag.GPSLongitude, Value.Rational [⟨139, 1⟩, ⟨45, 1⟩, ⟨0, 1⟩]),
   (Tag.GPSLongitudeRef, Value.Ascii ("E".data)),
   (Tag.PhotographicSensitivity, Value.UInt [100]),
   (Tag.PixelXDimension, Value.UInt [4000]),
   (Tag.PixelYDimension, Value.UInt [3000]),
   (Tag.Model, Value.Ascii ("EOS R5".data))]

/-- Container `exNoMake` with the `Make` tag added and all other tags identical. -/
def exWithMake : Exif := exifOf
  [(Tag.GPSLatitude, Value.Rational [⟨35, 1⟩, ⟨30, 1⟩, ⟨0, 1⟩]),
   (Tag.GPSLatitudeRef, Value.Ascii ("N".data)),
   (Tag.GPSLongitude, Value.Rational [⟨139, 1⟩, ⟨45, 1⟩, ⟨0, 1⟩]),
   (Tag.GPSLongitudeRef, Value.Ascii ("E".data)),
   (Tag.PhotographicSensitivity, Value.UInt [100]),
   (Tag.PixelXDimension, Value.UInt [4000]),
   (Tag.PixelYDimension, Value.UInt [3000]),
   (Tag.Model, Value.Ascii ("EOS R5".data)),
   (Tag.Make, Value.Ascii ("Canon".data))]

/-- A file system with no files at all. -/
def fsEmpty : Fs :=
  { pathExists := fun _ => false
    openFile := fun _ => Except.error [] }

/-- An image file system with no files at all. -/
def imgFsEmpty : ImgFs :=
  { pathExists := fun _ => false
    openImage := fun _ => Except.error [] }

/-- A trivial JPEG encoder stand-in used only to instantiate theorems. -/
def encOk : RawImage → Except (List Char) (List Nat) := fun _ => Except.ok []

/-- Evaluation of `extract_gps_coordinate` when both fields are present and
the coordinate field is a rational list of length at least three. -/
theorem gps_coord_eval (e : Exif) (ct rt : Tag)
    (dv mv sv : Rational) (rest : List Rational) (rv : Value)
    (hc : e.fields ct = some (Value.Rational (dv :: mv :: sv :: rest)))
    (hr : e.fields rt = some rv) :
    extract_gps_coordinate e ct rt =
      some (if rv.display_value = ("S".data) ∨ rv.display_value = ("W".data)
        then -(dv.to_f64 + mv.to_f64 / 60 + sv.to_f64 / 3600)
        else dv.to_f64 + mv.to_f64 / 60 + sv.to_f64 / 3600) := by
  unfold extract_gps_coordinate Exif.get_field
  rw [hc, hr]
  by_cases h : rv.display_value = ("S".data) ∨ rv.display_value = ("W".data)
  · simp [h]
  · simp [h]

/-- C1.  For any container in which the coordinate tag holds a rational list
of length at least three and the reference tag is present, the extracted
decimal value is degrees + minutes/60 + seconds/3600, negated exactly when
the displayed reference is "S" or "W". -/
theorem C1_gps_decimal_conversion (e : Exif) (ct rt : Tag)
    (dv mv sv : Rational) (rest : List Rational) (rv : Value)
    (hc : e.fields ct = some (Value.Rational (dv :: mv :: sv :: rest)))
    (hr : e.fields rt = some rv) :
    extract_gps_coordinate e ct rt =
      some (if rv.display_value = ("S".data) ∨ rv.display_value = ("W".data)
        then -(dv.to_f64 + mv.to_f64 / 60 + sv.to_f64 / 3600)
        else dv.to_f64 + mv.to_f64 / 60 + sv.to_f64 / 3600) :=
  gps_coord_eval e ct rt dv mv sv rest rv hc hr

/-- C1 witness: on the P2 container the theorem yields lat = 35.5 and
lng = 139.75, and on the S/W container of identical magnitude it yields the
negated values. -/
theorem C1_gps_decimal_conversion_witness :
    extract_gps_coordinate exP2 Tag.GPSLatitude Tag.GPSLatitudeRef = some (71 / 2) ∧
    extract_gps_coordinate exP2 Tag.GPSLongitude Tag.GPSLongitudeRef = some (559 / 4) ∧
    extract_gps_coordinate exP2SW Tag.GPSLatitude Tag.GPSLatitudeRef = some (-(71 / 2)) ∧
    extract_gps_coordinate exP2SW Tag.GPSLongitude Tag.GPSLongitudeRef = some (-(559 / 4)) := by
  refine ⟨?_, ?_, ?_, ?_⟩
  · have h := C1_gps_decimal_conversion exP2 Tag.GPSLatitude Tag.GPSLatitudeRef
      ⟨35, 1⟩ ⟨30, 1⟩ ⟨0, 1⟩ [] (Value.Ascii ("N".data)) (by decide) (by decide)
    rw [h, if_neg (by decide)]; norm_num [Rational.to_f64]
  · have h := C1_gps_decimal_conversion exP2 Tag.GPSLongitude Tag.GPSLongitudeRef
      ⟨139, 1⟩ ⟨45, 1⟩ ⟨0, 1⟩ [] (Value.Ascii ("E".data)) (by decide) (by decide)
    rw [h, if_neg (by decide)]; norm_num [Rational.to_f64]
  · have h := C1_gps_decimal_conversion exP2SW Tag.GPSLatitude Tag.GPSLatitudeRef
      ⟨35, 1⟩ ⟨30, 1⟩ ⟨0, 1⟩ [] (Value.Ascii ("S".data)) (by decide) (by decide)
    rw [h, if_pos (by decide)]; norm_num [Rational.to_f64]
  · have h := C1_gps_decimal_conversion exP2SW Tag.GPSLongitude Tag.GPSLongitudeRef
      ⟨139, 1⟩ ⟨45, 1⟩ ⟨0, 1⟩ [] (Value.Ascii ("W".data)) (by decide) (by decide)
    rw [h, if_pos (by decide)]; norm_num [Rational.to_f64]

/-- A rational with natural numerator and denominator is nonnegative. -/
theorem to_f64_nonneg (r : Rational) : 0 ≤ r.to_f64 := by
  unfold Rational.to_f64
  positivity

/-- C10.  Negation happens only on the exact displayed texts "S" and "W";
any other reference content is accepted without validation and yields the
non-negated value. -/
theorem C10_ref_text_unvalidated (e : Exif) (ct rt : Tag)
    (dv mv sv : Rational) (rest : List Rational) (rv : Value)
    (hc : e.fields ct = some (Value.Rational (dv :: mv :: sv :: rest)))
    (hr : e.fields rt = some rv)
    (hs : rv.display_value ≠ "S".data) (hw : rv.display_value ≠ "W".data) :
    extract_gps_coordinate e ct rt =
      some (dv.to_f64 + mv.to_f64 / 60 + sv.to_f64 / 3600) := by
  rw [gps_coord_eval e ct rt dv mv sv rest rv hc hr,
    if_neg (by exact fun h => h.elim hs hw)]

/-- C10 witness: a lowercase "s" latitude reference still yields the
positive value 35.5. -/
theorem C10_ref_text_unvalidated_witness :
    extract_gps_coordinate exLowerRef Tag.GPSLatitude Tag.GPSLatitudeRef = some (71 / 2) := by
  have h := C10_ref_text_unvalidated exLowerRef Tag.GPSLatitude Tag.GPSLatitudeRef
    ⟨35, 1⟩ ⟨30, 1⟩ ⟨0, 1⟩ [] (Value.Ascii ("s".data))
    (by decide) (by decide) (by decide) (by decide)
  rw [h]; norm_num [Rational.to_f64]

/-- C3 counterexample: the container `exBig` (latitude triple 200°0′0″ N,
longitude triple 300°0′0″ E) is decoded to latitude 200 and longitude 300,
which violate the claimed ranges [-90, 90] and [-180, 180]: the code applies
no range clamping. -/
theorem C3_counterexample :
    (read_exif_data exBig).gps = some { lat := 200, lng := 300 } ∧
      ¬((200 : ℚ) ≤ 90) ∧ ¬((300 : ℚ) ≤ 180) := by
  refine ⟨?_, by norm_num, by norm_num⟩
  have hlat := gps_coord_eval exBig Tag.GPSLatitude Tag.GPSLatitudeRef
    ⟨200, 1⟩ ⟨0, 1⟩ ⟨0, 1⟩ [] (Value.Ascii ("N".data)) (by decide) (by decide)
  have hlng := gps_coord_eval exBig Tag.GPSLongitude Tag.GPSLongitudeRef
    ⟨300, 1⟩ ⟨0, 1⟩ ⟨0, 1⟩ [] (Value.Ascii ("E".data)) (by decide) (by decide)
  rw [if_neg (by decide)] at hlat
  rw [if_neg (by decide)] at hlng
  show extract_gps exBig = _
  unfold extract_gps
  rw [hlat, hlng]
  norm_num [Rational.to_f64]

/-- C3 amended: sign normalization only flips the sign, and the sexagesimal
components are unsigned, so whenever the (nonnegative) decimal magnitude of
each axis is within its geographic bound the returned coordinate lies in
latitude [-90, 90] and longitude [-180, 180]; for larger magnitudes the code
performs no clamping and the claimed invariant fails. -/
theorem C3_range_amended (e : Exif)
    (dla mla sla dlo mlo slo : Rational) (rla rlo : List Rational) (vla vlo : Value)
    (h1 : e.fields Tag.GPSLatitude = some (Value.Rational (dla :: mla :: sla :: rla)))
    (h2 : e.fields Tag.GPSLatitudeRef = some vla)
    (h3 : e.fields Tag.GPSLongitude = some (Value.Rational (dlo :: mlo :: slo :: rlo)))
    (h4 : e.fields Tag.GPSLongitudeRef = some vlo)
    (hla : dla.to_f64 + mla.to_f64 / 60 + sla.to_f64 / 3600 ≤ 90)
    (hlo : dlo.to_f64 + mlo.to_f64 / 60 + slo.to_f64 / 3600 ≤ 180) :
    ∃ g : Gps, extract_gps e = some g ∧
      -90 ≤ g.lat ∧ g.lat ≤ 90 ∧ -180 ≤ g.lng ∧ g.lng ≤ 180 := by
  have hlat := gps_coord_eval e Tag.GPSLatitude Tag.GPSLatitudeRef
    dla mla sla rla vla h1 h2
  have hlng := gps_coord_eval e Tag.GPSLongitude Tag.GPSLongitudeRef
    dlo mlo slo rlo vlo h3 h4
  have hnla : 0 ≤ dla.to_f64 + mla.to_f64 / 60 + sla.to_f64 / 3600 := by
    have a1 := to_f64_nonneg dla
    have a2 := to_f64_nonneg mla
    have a3 := to_f64_nonneg sla
    positivity
  have hnlo : 0 ≤ dlo.to_f64 + mlo.to_f64 / 60 + slo.to_f64 / 3600 := by
    have a1 := to_f64_nonneg dlo
    have a2 := to_f64_nonneg mlo
    have a3 := to_f64_nonneg slo
    positivity
  have hg : extract_gps e =
      some ⟨(if vla.display_value = ("S".data) ∨ vla.display_value = ("W".data)
          then -(dla.to_f64 + mla.to_f64 / 60 + sla.to_f64 / 3600)
          else dla.to_f64 + mla.to_f64 / 60 + sla.to_f64 / 3600),
        (if vlo.display_value = ("S".data) ∨ vlo.display_value = ("W".data)
          then -(dlo.to_f64 + mlo.to_f64 / 60 + slo.to_f64 / 3600)
          else dlo.to_f64 + mlo.to_f64 / 60 + slo.to_f64 / 3600)⟩ := by
    unfold extract_gps
    rw [hlat, hlng]
  refine ⟨_, hg, ?_, ?_, ?_, ?_⟩
  · dsimp only
    split_ifs <;> linarith
  · dsimp only
    split_ifs <;> linarith
  · dsimp only
    split_ifs <;> linarith
  · dsimp only
    split_ifs <;> linarith

/-- C3 amended witness: the P2 container satisfies the magnitude bounds and
yields a coordinate inside the geographic ranges. -/
theorem C3_range_amended_witness :
    ∃ g : Gps, extract_gps exP2 = some g ∧
      -90 ≤ g.lat ∧ g.lat ≤ 90 ∧ -180 ≤ g.lng ∧ g.lng ≤ 180 :=
  C3_range_amended exP2 ⟨35, 1⟩ ⟨30, 1⟩ ⟨0, 1⟩ ⟨139, 1⟩ ⟨45, 1⟩ ⟨0, 1⟩ [] []
    (Value.Ascii ("N".data)) (Value.Ascii ("E".data))
    (by decide) (by decide) (by decide) (by decide)
    (by norm_num [Rational.to_f64]) (by norm_num [Rational.to_f64])

/-- Absence: `extract_gps_coordinate` yields nothing when either field is absent. -/
theorem gps_coord_none (e : Exif) (ct rt : Tag)
    (h : e.fields ct = none ∨ e.fields rt = none) :
    extract_gps_coordinate e ct rt = none := by
  unfold extract_gps_coordinate Exif.get_field
  rcases h with h | h
  · rw [h]
  · rw [h]
    cases e.fields ct <;> rfl

/-- C4.  If on either axis one half of the triple/reference pair is present
and the other half is absent, the record carries no GPS coordinate at all. -/
theorem C4_no_partial_coordinate (e : Exif)
    (h : (e.fields Tag.GPSLatitude ≠ none ∧ e.fields Tag.GPSLatitudeRef = none)
       ∨ (e.fields Tag.GPSLatitude = none ∧ e.fields Tag.GPSLatitudeRef ≠ none)
       ∨ (e.fields Tag.GPSLongitude ≠ none ∧ e.fields Tag.GPSLongitudeRef = none)
       ∨ (e.fields Tag.GPSLongitude = none ∧ e.fields Tag.GPSLongitudeRef ≠ none)) :
    extract_gps e = none ∧ (read_exif_data e).gps = none := by
  have hgps : extract_gps e = none := by
    unfold extract_gps
    rcases h with ⟨_, h2⟩ | ⟨h1, _⟩ | ⟨_, h2⟩ | ⟨h1, _⟩
    · rw [gps_coord_none e _ _ (Or.inr h2)]
    · rw [gps_coord_none e _ _ (Or.inl h1)]
    · rw [gps_coord_none e Tag.GPSLongitude Tag.GPSLongitudeRef (Or.inr h2)]
      cases extract_gps_coordinate e Tag.GPSLatitude Tag.GPSLatitudeRef <;> rfl
    · rw [gps_coord_none e Tag.GPSLongitude Tag.GPSLongitudeRef (Or.inl h1)]
      cases extract_gps_coordinate e Tag.GPSLatitude Tag.GPSLatitudeRef <;> rfl
  exact ⟨hgps, hgps⟩

/-- C4 witness: a container with a latitude triple, no latitude reference,
and a complete longitude pair yields no GPS coordinate. -/
theorem C4_no_partial_coordinate_witness :
    extract_gps exHalfGps = none ∧ (read_exif_data exHalfGps).gps = none :=
  C4_no_partial_coordinate exHalfGps (Or.inl ⟨by decide, by decide⟩)

/-- Replacing a character that does not occur leaves the string unchanged. -/
theorem replaceChar_not_mem (a b : Char) (s : List Char) (h : a ∉ s) :
    replaceChar a b s = s := by
  induction s with
  | nil => rfl
  | cons c cs ih =>
    have hc : c ≠ a := fun he => h (he ▸ List.mem_cons_self c cs)
    have hcs : a ∉ cs := fun hm => h (List.mem_cons_of_mem c hm)
    simp [replaceChar, hc, ih hcs, List.map] at ih ⊢
    exact ih hcs

/-- The map `replaceChar` distributes over append. -/
theorem replaceChar_append (a b : Char) (s t : List Char) :
    replaceChar a b (s ++ t) = replaceChar a b s ++ replaceChar a b t :=
  List.map_append _ s t

/-- Replacing back and forth is the identity when the replacement character
did not occur in the original string. -/
theorem replaceChar_cons (a b c : Char) (cs : List Char) :
    replaceChar a b (c :: cs) = (if c = a then b else c) :: replaceChar a b cs := rfl

theorem replaceChar_roundtrip (a b : Char) (s : List Char)
    (hab : b ≠ a) (h : b ∉ s) :
    replaceChar b a (replaceChar a b s) = s := by
  induction s with
  | nil => rfl
  | cons c cs ih =>
    have hcs : b ∉ cs := fun hm => h (List.mem_cons_of_mem c hm)
    have hc : c ≠ b := fun he => h (he ▸ List.mem_cons_self c cs)
    rw [replaceChar_cons, replaceChar_cons]
    by_cases hca : c = a
    · subst hca
      simp [ih hcs]
    · simp [hca, hc, ih hcs]

/-- The map `replaceChar a b` introduces no character other than `b`. -/
theorem replaceChar_not_mem_of (a b x : Char) (s : List Char)
    (hx : x ∉ s) (hxb : x ≠ b) :
    x ∉ replaceChar a b s := by
  intro hm
  rcases List.mem_map.1 hm with ⟨c, hc, he⟩
  by_cases hca : c = a
  · simp [hca] at he
    exact hxb he.symm
  · simp [hca] at he
    exact hx (he ▸ hc)

/-- Splitting on a character that does not occur yields the whole string. -/
theorem splitOnChar_not_mem (sep : Char) (s : List Char) (h : sep ∉ s) :
    splitOnChar sep s = [s] := by
  induction s with
  | nil => rfl
  | cons c cs ih =>
    have hc : c ≠ sep := fun he => h (he ▸ List.mem_cons_self c cs)
    have hcs : sep ∉ cs := fun hm => h (List.mem_cons_of_mem c hm)
    simp [splitOnChar, hc, ih hcs]

/-- Splitting at the first separator occurrence. -/
theorem splitOnChar_append (sep : Char) (a b : List Char) (ha : sep ∉ a) :
    splitOnChar sep (a ++ sep :: b) = a :: splitOnChar sep b := by
  induction a with
  | nil => simp [splitOnChar]
  | cons c cs ih =>
    have hc : c ≠ sep := fun he => ha (he ▸ List.mem_cons_self c cs)
    have hcs : sep ∉ cs := fun hm => ha (List.mem_cons_of_mem c hm)
    simp [splitOnChar, hc, ih hcs]

/-- C2.  A displayed timestamp of the form `date ++ " " ++ time` — where the
date and time parts contain no space and no 'T', and the time part contains
no hyphen — normalizes to `date-with-hyphens ++ "T" ++ time`: the space
becomes 'T', colons of the date part become hyphens, and the time part is
returned with its colons intact. -/
theorem C2_timestamp_normalization (e : Exif) (v : Value) (d t : List Char)
    (hget : (e.get_field Tag.DateTimeOriginal).orElse
      (fun _ => e.get_field Tag.DateTime) = some v)
    (hdisp : v.display_value = d ++ ' ' :: t)
    (hd1 : ' ' ∉ d) (hd2 : 'T' ∉ d)
    (ht1 : ' ' ∉ t) (ht2 : 'T' ∉ t) (ht3 : '-' ∉ t) :
    extract_datetime e = some (replaceChar ':' '-' d ++ 'T' :: t) := by
  have step1 : replaceChar ' ' 'T' (d ++ ' ' :: t) = d ++ 'T' :: t := by
    rw [replaceChar_append]
    rw [replaceChar_not_mem _ _ _ hd1]
    simp [replaceChar, replaceChar_not_mem _ _ _ ht1]
    exact replaceChar_not_mem _ _ _ ht1
  have step2 : replaceChar ':' '-' (d ++ 'T' :: t)
      = replaceChar ':' '-' d ++ 'T' :: replaceChar ':' '-' t := by
    rw [replaceChar_append]
    simp [replaceChar]
  have hTd : 'T' ∉ replaceChar ':' '-' d :=
    replaceChar_not_mem_of ':' '-' 'T' d hd2 (by decide)
  have hTt : 'T' ∉ replaceChar ':' '-' t :=
    replaceChar_not_mem_of ':' '-' 'T' t ht2 (by decide)
  have step3 : splitOnChar 'T'
        (replaceChar ':' '-' d ++ 'T' :: replaceChar ':' '-' t)
      = [replaceChar ':' '-' d, replaceChar ':' '-' t] := by
    rw [splitOnChar_append _ _ _ hTd, splitOnChar_not_mem _ _ hTt]
  have step4 : replaceChar '-' ':' (replaceChar ':' '-' t) = t :=
    replaceChar_roundtrip ':' '-' t (by decide) ht3
  unfold extract_datetime
  rw [hget]
  dsimp only
  rw [hdisp, step1, step2, step3]
  dsimp only
  rw [step4]

/-- C2 witness: `"2024:03:15 10:20:30"` normalizes to
`"2024-03-15T10:20:30"`. -/
theorem C2_timestamp_normalization_witness :
    extract_datetime exDT = some ("2024-03-15T10:20:30".data) := by
  have h := C2_timestamp_normalization exDT
    (Value.Ascii ("2024:03:15 10:20:30".data)) ("2024:03:15".data) ("10:20:30".data)
    (by decide) (by decide) (by decide) (by decide) (by decide) (by decide) (by decide)
  rw [h]
  decide

/-- C9.  When the transformed string does not split into exactly two parts
on 'T', the raw displayed timestamp is returned unchanged — a defined
fallback, not an error, and not `none`. -/
theorem C9_timestamp_fallback (e : Exif) (v : Value)
    (hget : (e.get_field Tag.DateTimeOriginal).orElse
      (fun _ => e.get_field Tag.DateTime) = some v)
    (hsplit : (splitOnChar 'T'
      (replaceChar ':' '-' (replaceChar ' ' 'T' v.display_value))).length ≠ 2) :
    extract_datetime e = some v.display_value := by
  unfold extract_datetime
  rw [hget]
  dsimp only
  rcases hp : splitOnChar 'T'
      (replaceChar ':' '-' (replaceChar ' ' 'T' v.display_value)) with _ | ⟨p1, _ | ⟨p2, _ | _⟩⟩ <;>
    simp_all

/-- C9 witness: a timestamp with no date/time separator is returned
verbatim. -/
theorem C9_timestamp_fallback_witness :
    extract_datetime exDTRaw = some ("20240315102030".data) := by
  have h := C9_timestamp_fallback exDTRaw
    (Value.Ascii ("20240315102030".data)) (by decide) (by decide)
  exact h

/-- C7.  A camera identity is returned exactly when both the make tag and
the model tag are present, whitespace-trimmed; with either tag absent no
identity at all is produced (no empty-string substitution). -/
theorem C7_camera_identity :
    (∀ e : Exif, ∀ mk md : Value,
      e.fields Tag.Make = some mk → e.fields Tag.Model = some md →
      extract_camera e =
        some { make := trim mk.display_value, model := trim md.display_value })
    ∧ (∀ e : Exif,
      e.fields Tag.Make = none ∨ e.fields Tag.Model = none →
      extract_camera e = none) := by
  constructor
  · intro e mk md h1 h2
    unfold extract_camera Exif.get_field
    rw [h1, h2]
  · intro e h
    unfold extract_camera Exif.get_field
    rcases h with h | h
    · rw [h]
    · rw [h]
      cases e.fields Tag.Make <;> rfl

/-- C7 witness: padded make/model values come back trimmed, and a container
with a model but no make yields no identity. -/
theorem C7_camera_identity_witness :
    extract_camera exCam = some { make := ("Canon".data), model := ("EOS R5".data) } ∧
    extract_camera exNoMake = none := by
  constructor
  · have h := C7_camera_identity.1 exCam
      (Value.Ascii (" Canon ".data)) (Value.Ascii (" EOS R5 ".data)) (by decide) (by decide)
    rw [h]
    decide
  · exact C7_camera_identity.2 exNoMake (Or.inl (by decide))

/-- Congruence: `extract_gps_coordinate` only reads its two tags. -/
theorem extract_gps_coordinate_congr (e1 e2 : Exif) (ct rt : Tag)
    (h1 : e1.fields ct = e2.fields ct) (h2 : e1.fields rt = e2.fields rt) :
    extract_gps_coordinate e1 ct rt = extract_gps_coordinate e2 ct rt := by
  unfold extract_gps_coordinate Exif.get_field
  rw [h1, h2]

/-- Congruence: `extract_gps` only reads the four GPS tags. -/
theorem extract_gps_congr (e1 e2 : Exif)
    (h1 : e1.fields Tag.GPSLatitude = e2.fields Tag.GPSLatitude)
    (h2 : e1.fields Tag.GPSLatitudeRef = e2.fields Tag.GPSLatitudeRef)
    (h3 : e1.fields Tag.GPSLongitude = e2.fields Tag.GPSLongitude)
    (h4 : e1.fields Tag.GPSLongitudeRef = e2.fields Tag.GPSLongitudeRef) :
    extract_gps e1 = extract_gps e2 := by
  unfold extract_gps
  rw [extract_gps_coordinate_congr e1 e2 _ _ h1 h2,
    extract_gps_coordinate_congr e1 e2 _ _ h3 h4]

/-- C5.  Each field of the extracted record depends only on its own tags:
changing (or removing, or malforming) any single tag `t` leaves every field
whose extractor does not read `t` unchanged.  In this embedding every
per-field extractor is a total function, so no lookup can abort the whole
extraction. -/
theorem C5_field_independence (e1 e2 : Exif) (t : Tag)
    (h : ∀ u : Tag, u ≠ t → e1.fields u = e2.fields u) :
    ((t ≠ Tag.GPSLatitude ∧ t ≠ Tag.GPSLatitudeRef ∧
        t ≠ Tag.GPSLongitude ∧ t ≠ Tag.GPSLongitudeRef) →
      (read_exif_data e1).gps = (read_exif_data e2).gps)
    ∧ ((t ≠ Tag.DateTimeOriginal ∧ t ≠ Tag.DateTime) →
      (read_exif_data e1).datetime = (read_exif_data e2).datetime)
    ∧ ((t ≠ Tag.Make ∧ t ≠ Tag.Model) →
      (read_exif_data e1).camera = (read_exif_data e2).camera)
    ∧ ((t ≠ Tag.PixelXDimension ∧ t ≠ Tag.ImageWidth) →
      (read_exif_data e1).width = (read_exif_data e2).width)
    ∧ ((t ≠ Tag.PixelYDimension ∧ t ≠ Tag.ImageLength) →
      (read_exif_data e1).height = (read_exif_data e2).height)
    ∧ (t ≠ Tag.PhotographicSensitivity →
      (read_exif_data e1).iso = (read_exif_data e2).iso)
    ∧ (t ≠ Tag.FNumber →
      (read_exif_data e1).aperture = (read_exif_data e2).aperture)
    ∧ (t ≠ Tag.ExposureTime →
      (read_exif_data e1).shutter_speed = (read_exif_data e2).shutter_speed)
    ∧ (t ≠ Tag.FocalLength →
      (read_exif_data e1).focal_length = (read_exif_data e2).focal_length) := by
  refine ⟨?_, ?_, ?_, ?_, ?_, ?_, ?_, ?_, ?_⟩
  · rintro ⟨n1, n2, n3, n4⟩
    exact extract_gps_congr e1 e2 (h _ (Ne.symm n1)) (h _ (Ne.symm n2))
      (h _ (Ne.symm n3)) (h _ (Ne.symm n4))
  · rintro ⟨n1, n2⟩
    show extract_datetime e1 = extract_datetime e2
    unfold extract_datetime Exif.get_field
    rw [h _ (Ne.symm n1), h _ (Ne.symm n2)]
  · rintro ⟨n1, n2⟩
    show extract_camera e1 = extract_camera e2
    unfold extract_camera Exif.get_field
    rw [h _ (Ne.symm n1), h _ (Ne.symm n2)]
  · rintro ⟨n1, n2⟩
    show (extract_image_size e1).1 = (extract_image_size e2).1
    unfold extract_image_size Exif.get_field
    rw [h _ (Ne.symm n1), h _ (Ne.symm n2)]
  · rintro ⟨n1, n2⟩
    show (extract_image_size e1).2 = (extract_image_size e2).2
    unfold extract_image_size Exif.get_field
    rw [h _ (Ne.symm n1), h _ (Ne.symm n2)]
  · intro n1
    show extract_iso e1 = extract_iso e2
    unfold extract_iso Exif.get_field
    rw [h _ (Ne.symm n1)]
  · intro n1
    show extract_aperture e1 = extract_aperture e2
    unfold extract_aperture Exif.get_field
    rw [h _ (Ne.symm n1)]
  · intro n1
    show extract_shutter_speed e1 = extract_shutter_speed e2
    unfold extract_shutter_speed Exif.get_field
    rw [h _ (Ne.symm n1)]
  · intro n1
    show extract_focal_length e1 = extract_focal_length e2
    unfold extract_focal_length Exif.get_field
    rw [h _ (Ne.symm n1)]

/-- C5 witness: removing only the `Make` tag leaves GPS, ISO and both
dimensions unchanged and still populated (camera alone becomes `none`). -/
theorem C5_field_independence_witness :
    (read_exif_data exNoMake).gps = (read_exif_data exWithMake).gps ∧
    (read_exif_data exNoMake).iso = (read_exif_data exWithMake).iso ∧
    (read_exif_data exNoMake).width = (read_exif_data exWithMake).width ∧
    (read_exif_data exNoMake).height = (read_exif_data exWithMake).height ∧
    (read_exif_data exNoMake).iso = some 100 ∧
    (read_exif_data exNoMake).width = some 4000 ∧
    (read_exif_data exNoMake).height = some 3000 ∧
    (read_exif_data exNoMake).camera = none := by
  have h := C5_field_independence exNoMake exWithMake Tag.Make (by decide)
  exact ⟨h.1 (by decide), h.2.2.2.2.2.1 (by decide), h.2.2.2.1 (by decide),
    h.2.2.2.2.1 (by decide), by decide, by decide, by decide, by decide⟩

/-- C8.  On any path that does not reference an existing file, both metadata
extraction and thumbnail derivation fail with exactly the `FileNotFound`
error carrying that path. -/
theorem C8_missing_file_not_found (fs : Fs) (ifs : ImgFs)
    (enc : RawImage → Except (List Char) (List Nat)) (path : List Char)
    (h1 : fs.pathExists path = false) (h2 : ifs.pathExists path = false) :
    read_exif fs path = Except.error (PhotoError.FileNotFound path) ∧
    generate_thumbnail enc ifs path = Except.error (PhotoError.FileNotFound path) := by
  constructor
  · unfold read_exif
    simp [h1]
  · unfold generate_thumbnail
    simp [h2]

/-- C8 witness: on an empty file system a concrete missing path produces
`FileNotFound` from both operations. -/
theorem C8_missing_file_not_found_witness :
    read_exif fsEmpty ("/nonexistent/file.jpg".data) =
      Except.error (PhotoError.FileNotFound ("/nonexistent/file.jpg".data)) ∧
    generate_thumbnail encOk imgFsEmpty ("/nonexistent/file.jpg".data) =
      Except.error (PhotoError.FileNotFound ("/nonexistent/file.jpg".data)) :=
  C8_missing_file_not_found fsEmpty imgFsEmpty encOk ("/nonexistent/file.jpg".data) rfl rfl

/-- Scaling the longer side by its own ratio to the bound hits the bound
exactly. -/
theorem long_side_round (a : Nat) (ha : 1 ≤ a) :
    round ((a : ℚ) * (200 / (a : ℚ))) = 200 := by
  have ha0 : ((a : ℚ)) ≠ 0 := by
    have h : (0 : ℚ) < (a : ℚ) := by exact_mod_cast Nat.lt_of_lt_of_le Nat.zero_lt_one ha
    exact h.ne'
  rw [mul_comm, div_mul_cancel₀ _ ha0]
  norm_num [round_eq]

/-- The rounded, 1-clamped shorter side of the resize stays within the bound
and within one pixel (scaled by the longer source side) of exact
proportionality. -/
theorem thumb_short_side (a b : Nat) (ha : 1 ≤ a) (hb : 1 ≤ b) (hba : b ≤ a) :
    max (round ((b : ℚ) * (200 / (a : ℚ)))).toNat 1 ≤ 200 ∧
    |((max (round ((b : ℚ) * (200 / (a : ℚ)))).toNat 1 : Nat) : ℤ) * (a : ℤ)
      - 200 * (b : ℤ)| ≤ (a : ℤ) := by
  have ha0 : (0 : ℚ) < (a : ℚ) := by exact_mod_cast Nat.lt_of_lt_of_le Nat.zero_lt_one ha
  have hb0 : (0 : ℚ) < (b : ℚ) := by exact_mod_cast Nat.lt_of_lt_of_le Nat.zero_lt_one hb
  have hba2 : (b : ℚ) ≤ (a : ℚ) := by exact_mod_cast hba
  set q : ℚ := (b : ℚ) * (200 / (a : ℚ)) with hqdef
  have hkey : q * (a : ℚ) = 200 * (b : ℚ) := by
    rw [hqdef, mul_assoc, div_mul_cancel₀ _ ha0.ne']
    ring
  have hq0 : 0 < q := by
    rw [hqdef]
    positivity
  have hq200 : q ≤ 200 := by
    have hdiv : (b : ℚ) / (a : ℚ) ≤ 1 := (div_le_one ha0).mpr hba2
    calc q = 200 * ((b : ℚ) / (a : ℚ)) := by rw [hqdef]; ring
    _ ≤ 200 * 1 := by linarith
    _ = 200 := by ring
  have hround_le : round q ≤ 200 := by
    rw [round_eq]
    have h1 : q + 1 / 2 < ((201 : ℤ) : ℚ) := by push_cast; linarith
    have h2 := Int.floor_lt.mpr h1
    omega
  have habs := abs_sub_round q
  by_cases hr1 : 1 ≤ round q
  · have hn : max (round q).toNat 1 = (round q).toNat := Nat.max_eq_left (by omega)
    have hcast : (((round q).toNat : ℤ)) = round q := Int.toNat_of_nonneg (by omega)
    refine ⟨by rw [hn]; omega, ?_⟩
    rw [hn, hcast]
    have hq_abs : |((round q : ℚ)) * (a : ℚ) - 200 * (b : ℚ)| ≤ (a : ℚ) := by
      rw [← hkey,
        show ((round q : ℚ)) * (a : ℚ) - q * (a : ℚ) = ((round q : ℚ) - q) * (a : ℚ) from by ring,
        abs_mul, abs_of_pos ha0, abs_sub_comm]
      nlinarith
    rw [show ((round q : ℚ)) * (a : ℚ) - 200 * (b : ℚ)
          = ((round q * (a : ℤ) - 200 * (b : ℤ) : ℤ) : ℚ) from by push_cast; ring,
      ← Int.cast_abs] at hq_abs
    exact_mod_cast hq_abs
  · push_neg at hr1
    have hn : max (round q).toNat 1 = 1 := by
      have h0 : (round q).toNat = 0 := by omega
      rw [h0]
      rfl
    have hq_lt : q < 1 / 2 := by
      rw [round_eq] at hr1
      have h2 := Int.lt_floor_add_one (q + 1 / 2)
      have h3 : ((⌊q + 1 / 2⌋ : ℤ) : ℚ) ≤ 0 := by exact_mod_cast Int.le_of_lt_add_one hr1
      linarith
    have hb_lt : 200 * (b : ℚ) < (a : ℚ) := by
      rw [← hkey]
      nlinarith
    have hb_le : 200 * (b : ℤ) ≤ (a : ℤ) := by exact_mod_cast hb_lt.le
    have hbnn : (0 : ℤ) ≤ 200 * (b : ℤ) := by positivity
    refine ⟨by omega, ?_⟩
    rw [hn, abs_le]
    constructor <;> push_cast <;> omega

/-- Core dimension bound for the bounded resize at target 200×200. -/
theorem resize_dimensions_bound (w h : Nat) (hw : 1 ≤ w) (hh : 1 ≤ h) :
    max (resize_dimensions w h 200 200).1 (resize_dimensions w h 200 200).2 ≤ 200 ∧
    |((resize_dimensions w h 200 200).2 : ℤ) * (w : ℤ) -
      (h : ℤ) * ((resize_dimensions w h 200 200).1 : ℤ)| ≤ ((max w h : Nat) : ℤ) := by
  have hw0 : (0 : ℚ) < (w : ℚ) := by exact_mod_cast Nat.lt_of_lt_of_le Nat.zero_lt_one hw
  have hh0 : (0 : ℚ) < (h : ℚ) := by exact_mod_cast Nat.lt_of_lt_of_le Nat.zero_lt_one hh
  by_cases hcase : h ≤ w
  · have hcast : (h : ℚ) ≤ (w : ℚ) := by exact_mod_cast hcase
    have hmin : min ((200 : ℚ) / (w : ℚ)) ((200 : ℚ) / (h : ℚ)) = (200 : ℚ) / (w : ℚ) :=
      min_eq_left (by gcongr)
    have hshort := thumb_short_side w h hw hh hcase
    have e1 : (resize_dimensions w h 200 200).1 = 200 := by
      simp only [resize_dimensions, Nat.cast_ofNat, hmin]
      rw [long_side_round w hw]
      rfl
    have e2 : (resize_dimensions w h 200 200).2
        = max (round ((h : ℚ) * ((200 : ℚ) / (w : ℚ)))).toNat 1 := by
      simp only [resize_dimensions, Nat.cast_ofNat, hmin]
    have hmax : max w h = w := Nat.max_eq_left hcase
    constructor
    · rw [e1, e2]
      omega
    · rw [e1, e2, hmax]
      simpa [Nat.cast_ofNat, mul_comm] using hshort.2
  · push_neg at hcase
    have hwh : w ≤ h := hcase.le
    have hcast : (w : ℚ) ≤ (h : ℚ) := by exact_mod_cast hwh
    have hmin : min ((200 : ℚ) / (w : ℚ)) ((200 : ℚ) / (h : ℚ)) = (200 : ℚ) / (h : ℚ) :=
      min_eq_right (by gcongr)
    have hshort := thumb_short_side h w hh hw hwh
    have e1 : (resize_dimensions w h 200 200).1
        = max (round ((w : ℚ) * ((200 : ℚ) / (h : ℚ)))).toNat 1 := by
      simp only [resize_dimensions, Nat.cast_ofNat, hmin]
    have e2 : (resize_dimensions w h 200 200).2 = 200 := by
      simp only [resize_dimensions, Nat.cast_ofNat, hmin]
      rw [long_side_round h hh]
      rfl
    have hmax : max w h = h := Nat.max_eq_right hwh
    constructor
    · rw [e1, e2]
      omega
    · rw [e1, e2, hmax]
      rw [abs_sub_comm]
      simpa [Nat.cast_ofNat, mul_comm] using hshort.2

/-- C6.  For any decodable source image the thumbnail's longer side is at
most `THUMBNAIL_SIZE` (200), and the thumbnail's height-to-width ratio
matches the source's within rounding: the cross-product deviation
`|thumbHeight·srcWidth − srcHeight·thumbWidth|` is at most one pixel scaled
by the longer source side. -/
theorem C6_thumbnail_bound (img : RawImage) (hw : 1 ≤ img.width) (hh : 1 ≤ img.height) :
    max (img.resize THUMBNAIL_SIZE THUMBNAIL_SIZE).width
        (img.resize THUMBNAIL_SIZE THUMBNAIL_SIZE).height ≤ THUMBNAIL_SIZE ∧
    |((img.resize THUMBNAIL_SIZE THUMBNAIL_SIZE).height : ℤ) * (img.width : ℤ) -
      (img.height : ℤ) * ((img.resize THUMBNAIL_SIZE THUMBNAIL_SIZE).width : ℤ)|
      ≤ ((max img.width img.height : Nat) : ℤ) := by
  obtain ⟨w, h⟩ := img
  exact resize_dimensions_bound w h hw hh

/-- C6 witness: a 4000×3000 source resizes within the bound and with
proportional dimensions. -/
theorem C6_thumbnail_bound_witness :
    max ((RawImage.mk 4000 3000).resize THUMBNAIL_SIZE THUMBNAIL_SIZE).width
        ((RawImage.mk 4000 3000).resize THUMBNAIL_SIZE THUMBNAIL_SIZE).height ≤ THUMBNAIL_SIZE ∧
    |(((RawImage.mk 4000 3000).resize THUMBNAIL_SIZE THUMBNAIL_SIZE).height : ℤ) * (4000 : ℤ) -
      (3000 : ℤ) * (((RawImage.mk 4000 3000).resize THUMBNAIL_SIZE THUMBNAIL_SIZE).width : ℤ)|
      ≤ ((max 4000 3000 : Nat) : ℤ) :=
  C6_thumbnail_bound (RawImage.mk 4000 3000) (by decide) (by decide)

end PhotoGeoView
